import Mathlib

/-!
Verification of the Tidal work-order tracker (src/api.py, src/bot_ui.py).

Shallow embedding conventions:
* A G-Sheet row becomes a Lean structure.  Empty-string sentinels for the
  CurrentStartTime column become Option Int (the column holds an ISO
  timestamp string or ""); all other string columns stay String.
* Timestamps are modelled in whole seconds as Int.  Python's
  round(time_spent + total_spent) is the identity on integral values, so
  at this granularity the round is omitted.
* Every endpoint reads the row, computes a header map and calls
  update_cells, which returns False on a store failure and leaves the row
  unchanged (the batch write either lands or does not).  Each operation is
  therefore parametrised by a storeOk : Bool; storeOk = false means the
  update_cells call(s) of that operation failed and wrote nothing.
* An endpoint's JSON reply is modelled by ApiResp.
-/

namespace Tidal

/-- One row of the WorkOrders sheet (columns as appended by create_work_order
in src/api.py). -/
structure WorkOrder where
  workOrderID : String
  projectID : String
  threadID : String
  status : String
  title : String
  deliverables : String
  pushedToUserID : String
  inProgressUserID : String
  qaSubmittedByID : String
  currentStartTime : Option Int
  totalTimeSeconds : Int
  deriving Repr, DecidableEq

/-- One row of the Projects sheet (columns as appended by create_project in
src/api.py). -/
structure Project where
  projectID : String
  channelID : String
  status : String
  title : String
  deliverables : String
  kpi : String
  dueDate : String
  accountableID : String
  driveFolderURL : String
  deriving Repr, DecidableEq

/-- The JSON reply of an endpoint: success (HTTP 200/201), notFound (404),
forbidden (403), error (500). -/
inductive ApiResp where
  | success
  | notFound
  | forbidden
  | error
  deriving Repr, DecidableEq

/-- The work-order row appended by create_work_order (src/api.py lines
237-249): Status "Open", empty InProgressUserID, QA_SubmittedByID and
CurrentStartTime, TotalTimeSeconds 0. -/
def create_work_order (woID projID threadID title deliv pushedTo : String) :
    WorkOrder :=
  { workOrderID := woID
    projectID := projID
    threadID := threadID
    status := "Open"
    title := title
    deliverables := deliv
    pushedToUserID := pushedTo
    inProgressUserID := ""
    qaSubmittedByID := ""
    currentStartTime := none
    totalTimeSeconds := 0 }

/-- start_work_order (src/api.py lines 310-329): if PushedToUserID is
non-empty and differs from the requester, reply 403 and write nothing;
otherwise write Status "InProgress", InProgressUserID := requester,
CurrentStartTime := now, and reply success without checking the
update_cells result. -/
def start_work_order (userId : String) (now : Int) (storeOk : Bool)
    (row : WorkOrder) : ApiResp × WorkOrder :=
  if row.pushedToUserID ≠ "" ∧ row.pushedToUserID ≠ userId then
    (ApiResp.forbidden, row)
  else
    let row' := if storeOk then
      { row with status := "InProgress", inProgressUserID := userId,
                 currentStartTime := some now }
      else row
    (ApiResp.success, row')

/-- The _log_time helper (src/api.py lines 331-349): if CurrentStartTime is
empty, return the stored TotalTimeSeconds and write nothing; otherwise add
now - CurrentStartTime (which the code does not clamp at zero) to the
total, write the new total while clearing CurrentStartTime and
InProgressUserID, and return the new total. -/
def log_time (now : Int) (storeOk : Bool) (row : WorkOrder) :
    Int × WorkOrder :=
  match row.currentStartTime with
  | none => (row.totalTimeSeconds, row)
  | some start =>
      let timeSpent : Int := now - start
      let newTotal : Int := timeSpent + row.totalTimeSeconds
      let row' := if storeOk then
        { row with totalTimeSeconds := newTotal, currentStartTime := none,
                   inProgressUserID := "" }
        else row
      (newTotal, row')

/-- pause_work_order (src/api.py lines 351-359): run the time flush (one
update_cells call inside _log_time, outcome flushOk), then write Status
"Open" (a second, independent update_cells call, outcome statusOk); the
request body is never read (no requester check) and both update_cells
results are ignored — the reply is always success. -/
def pause_work_order (now : Int) (flushOk statusOk : Bool)
    (row : WorkOrder) : ApiResp × WorkOrder :=
  let r1 := (log_time now flushOk row).2
  let r2 := if statusOk then { r1 with status := "Open" } else r1
  (ApiResp.success, r2)

/-- finish_work_order (src/api.py lines 361-376): run the time flush (one
update_cells call inside _log_time, outcome flushOk), then write Status
"InQA" and QA_SubmittedByID := requester (a second, independent
update_cells call, outcome statusOk); the requester is never compared
against InProgressUserID and the update_cells results are ignored — the
reply is always success. -/
def finish_work_order (userId : String) (now : Int) (flushOk statusOk : Bool)
    (row : WorkOrder) : ApiResp × WorkOrder :=
  let r1 := (log_time now flushOk row).2
  let r2 := if statusOk then
    { r1 with status := "InQA", qaSubmittedByID := userId }
    else r1
  (ApiResp.success, r2)

/-- approve_work_order (src/api.py lines 378-391): write Status "Approved"
and clear InProgressUserID, CurrentStartTime and QA_SubmittedByID; there is
no status check and no requester in the request — the reply is always
success. -/
def approve_work_order (storeOk : Bool) (row : WorkOrder) :
    ApiResp × WorkOrder :=
  let r := if storeOk then
    { row with status := "Approved", inProgressUserID := "",
               currentStartTime := none, qaSubmittedByID := "" }
    else row
  (ApiResp.success, r)

/-- rework_work_order (src/api.py lines 393-406): same as approve but the
written status is "Open". -/
def rework_work_order (storeOk : Bool) (row : WorkOrder) :
    ApiResp × WorkOrder :=
  let r := if storeOk then
    { row with status := "Open", inProgressUserID := "",
               currentStartTime := none, qaSubmittedByID := "" }
    else row
  (ApiResp.success, r)

/-- The allow-listed fields of update_work_order (src/api.py line 295). -/
structure WorkOrderEdit where
  title : Option String
  deliverables : Option String
  pushedToUserID : Option String
  deriving Repr, DecidableEq

/-- update_work_order (src/api.py lines 288-302): overwrite only the
allow-listed fields; this endpoint does check update_cells and replies
with a 500 error when the write fails. -/
def update_work_order (d : WorkOrderEdit) (storeOk : Bool)
    (row : WorkOrder) : ApiResp × WorkOrder :=
  if storeOk then
    (ApiResp.success,
      { row with title := d.title.getD row.title,
                 deliverables := d.deliverables.getD row.deliverables,
                 pushedToUserID := d.pushedToUserID.getD row.pushedToUserID })
  else (ApiResp.error, row)

/-- The allow-listed fields of update_project (src/api.py line 172). -/
structure ProjectEdit where
  title : Option String
  deliverables : Option String
  kpi : Option String
  dueDate : Option String
  accountableID : Option String
  deriving Repr, DecidableEq

/-- update_project (src/api.py lines 164-179): overwrite only the
allow-listed fields; checks update_cells and replies 500 on failure. -/
def update_project (d : ProjectEdit) (storeOk : Bool) (p : Project) :
    ApiResp × Project :=
  if storeOk then
    (ApiResp.success,
      { p with title := d.title.getD p.title,
               deliverables := d.deliverables.getD p.deliverables,
               kpi := d.kpi.getD p.kpi,
               dueDate := d.dueDate.getD p.dueDate,
               accountableID := d.accountableID.getD p.accountableID })
  else (ApiResp.error, p)

/-- finish_project (src/api.py lines 181-205): after a best-effort G-Drive
folder move (side effect, not modelled), write Status "Finished" and
overwrite DueDate with the finish date; no requester appears in the route;
update_cells is checked and a failure replies 500. -/
def finish_project (today : String) (storeOk : Bool) (p : Project) :
    ApiResp × Project :=
  if storeOk then
    (ApiResp.success, { p with status := "Finished", dueDate := today })
  else (ApiResp.error, p)

/-! The presentation layer (src/bot_ui.py) guards some buttons with an
actor-ID equality check against its cached row before calling the API. -/

/-- pause_button (src/bot_ui.py lines 699-727): refuse without calling the
API when the clicking user differs from the cached InProgressUserID. -/
def pause_button (userId : String) (now : Int) (flushOk statusOk : Bool)
    (row : WorkOrder) : ApiResp × WorkOrder :=
  if userId ≠ row.inProgressUserID then (ApiResp.forbidden, row)
  else pause_work_order now flushOk statusOk row

/-- finish_button (src/bot_ui.py lines 729-761): refuse without calling the
API when the clicking user differs from the cached InProgressUserID. -/
def finish_button (userId : String) (now : Int) (flushOk statusOk : Bool)
    (row : WorkOrder) : ApiResp × WorkOrder :=
  if userId ≠ row.inProgressUserID then (ApiResp.forbidden, row)
  else finish_work_order userId now flushOk statusOk row

/-- approve_button (src/bot_ui.py lines 764-796): refuse without calling
the API when the clicking user differs from the parent project's
AccountableID. -/
def approve_button (userId : String) (proj : Project) (storeOk : Bool)
    (row : WorkOrder) : ApiResp × WorkOrder :=
  if userId ≠ proj.accountableID then (ApiResp.forbidden, row)
  else approve_work_order storeOk row

/-- rework_button (src/bot_ui.py lines 798-829): refuse without calling the
API when the clicking user differs from the parent project's
AccountableID. -/
def rework_button (userId : String) (proj : Project) (storeOk : Bool)
    (row : WorkOrder) : ApiResp × WorkOrder :=
  if userId ≠ proj.accountableID then (ApiResp.forbidden, row)
  else rework_work_order storeOk row

/-- ProjectControlView.finish_project button (src/bot_ui.py lines 208-236):
refuse without calling the API when the clicking user differs from the
project's AccountableID; on match the confirm flow calls the API route. -/
def finish_project_button (userId today : String) (storeOk : Bool)
    (p : Project) : ApiResp × Project :=
  if userId ≠ p.accountableID then (ApiResp.forbidden, p)
  else finish_project today storeOk p

/-! Sequential state machine over the core work-order endpoints. -/

/-- One invocation of a work-order endpoint, with the outcome of each of
its store writes (pause and finish issue two independent ones). -/
inductive WoOp where
  | start (userId : String) (now : Int) (storeOk : Bool)
  | pause (now : Int) (flushOk statusOk : Bool)
  | finish (userId : String) (now : Int) (flushOk statusOk : Bool)
  | approve (storeOk : Bool)
  | rework (storeOk : Bool)
  | update (d : WorkOrderEdit) (storeOk : Bool)
  deriving Repr

/-- The row after one endpoint invocation run sequentially to completion
(refusals and failed writes leave the affected cells as they were). -/
def applyOp : WoOp → WorkOrder → WorkOrder
  | .start u n ok, row => (start_work_order u n ok row).2
  | .pause n f s, row => (pause_work_order n f s row).2
  | .finish u n f s, row => (finish_work_order u n f s row).2
  | .approve ok, row => (approve_work_order ok row).2
  | .rework ok, row => (rework_work_order ok row).2
  | .update d ok, row => (update_work_order d ok row).2

/-- True when the invocation's store writes share one outcome — pause and
finish behave atomically only when their flush write and their status
write both land or both fail. -/
def atomicWrites : WoOp → Bool
  | .pause _ f s => f == s
  | .finish _ _ f s => f == s
  | _ => true

/-- The row after a sequence of endpoint invocations. -/
def runOps (ops : List WoOp) (row : WorkOrder) : WorkOrder :=
  ops.foldl (fun r o => applyOp o r) row

/-- The timer invariant of the spec: CurrentStartTime is set iff the status
is InProgress. -/
def timerInvariant (row : WorkOrder) : Prop :=
  row.currentStartTime ≠ none ↔ row.status = "InProgress"

instance (row : WorkOrder) : Decidable (timerInvariant row) := by
  unfold timerInvariant; infer_instance

/-! Concrete example rows used by witnesses and counterexamples. -/

/-- An Open row with no assignment and no running timer. -/
def exOpenRow : WorkOrder :=
  create_work_order "wo-1-100" "proj-1" "th-1" "Grip" "print it" ""

/-- An InProgress row held by actor A since time 0. -/
def exInProgressRow : WorkOrder :=
  { exOpenRow with status := "InProgress", inProgressUserID := "A",
                   currentStartTime := some 0 }

/-- An InQA row submitted by actor A with 5 accumulated seconds. -/
def exInQARow : WorkOrder :=
  { exOpenRow with status := "InQA", qaSubmittedByID := "A",
                   totalTimeSeconds := 5 }

/-- An InProgress row whose timer started at 100 with 50 accumulated
seconds, used to exercise clock skew (a flush at now = 0). -/
def exSkewRow : WorkOrder :=
  { exOpenRow with status := "InProgress", inProgressUserID := "A",
                   currentStartTime := some 100, totalTimeSeconds := 50 }

/-- An Active project accountable to actor P. -/
def exProject : Project :=
  { projectID := "proj-1", channelID := "ch-1", status := "Active",
    title := "Grip", deliverables := "print it", kpi := "", dueDate := "2026-10-20",
    accountableID := "P", driveFolderURL := "" }

/-- An Open row pushed to actor T. -/
def exPushedRow : WorkOrder := { exOpenRow with pushedToUserID := "T" }

/-- The row reached by create, Start by A at 0, Finish by A at 5, then the
(unguarded) Pause endpoint at 6. -/
def exPauseFromInQARun : WorkOrder :=
  runOps
    [WoOp.start "A" 0 true, WoOp.finish "A" 5 true true,
     WoOp.pause 6 true true]
    (create_work_order "wo-1-101" "proj-1" "th-2" "T" "D" "")

/-- The row reached by create, Start by A at 0, then a Pause at 3 whose
flush write lands while its independent status write fails. -/
def exPartialPauseRun : WorkOrder :=
  runOps [WoOp.start "A" 0 true, WoOp.pause 3 true false]
    (create_work_order "wo-1-103" "proj-1" "th-3" "T" "D" "")

/-! Helper lemmas about the time flush. -/

/-- A failed store write inside the flush leaves the row unchanged. -/
theorem log_time_failed_write (now : Int) (row : WorkOrder) :
    (log_time now false row).2 = row := by
  cases hc : row.currentStartTime <;> simp [log_time, hc]

/-- A successful flush always ends with an empty CurrentStartTime and does
not touch the status. -/
theorem log_time_clears_timer (now : Int) (row : WorkOrder) :
    (log_time now true row).2.currentStartTime = none ∧
    (log_time now true row).2.status = row.status := by
  cases hc : row.currentStartTime <;> simp [log_time, hc]

/-- Claim C6: a flush on a row with empty CurrentStartTime returns the
stored TotalTimeSeconds and writes nothing, and two consecutive flushes
without an intervening Start yield the same TotalTimeSeconds as one. -/
theorem flush_noop_and_idempotent (row : WorkOrder) (now now2 : Int) (ok : Bool) :
    (row.currentStartTime = none → log_time now ok row = (row.totalTimeSeconds, row)) ∧
    (log_time now2 true (log_time now true row).2).1 = (log_time now true row).1 ∧
    (log_time now2 true (log_time now true row).2).2.totalTimeSeconds =
      (log_time now true row).2.totalTimeSeconds := by
  cases hc : row.currentStartTime <;> simp [log_time, hc]

/-- Witness for claim C6 at the concrete InQA row (no running timer). -/
theorem flush_noop_and_idempotent_witness :
    log_time 9 true exInQARow = (exInQARow.totalTimeSeconds, exInQARow) :=
  (flush_noop_and_idempotent exInQARow 9 0 true).1 (by decide)

/-- Claim C7: on a row with non-empty PushedToUserID, start_work_order
rejects any other requester with Forbidden leaving the row unchanged, and
for the matching requester it succeeds, setting Status to InProgress,
InProgressUserID to the requester and CurrentStartTime to now. -/
theorem start_pushed_to_gate (row : WorkOrder) (uid : String) (now : Int)
    (hp : row.pushedToUserID ≠ "") :
    (uid ≠ row.pushedToUserID →
      start_work_order uid now true row = (ApiResp.forbidden, row)) ∧
    (uid = row.pushedToUserID →
      start_work_order uid now true row =
        (ApiResp.success,
          { row with status := "InProgress", inProgressUserID := uid,
                     currentStartTime := some now })) := by
  constructor
  · intro h
    have h' : row.pushedToUserID ≠ uid := Ne.symm h
    simp [start_work_order, hp, h']
  · intro h
    simp [start_work_order, h]

/-- Witness for claim C7: both branches at the concrete pushed row. -/
theorem start_pushed_to_gate_witness :
    start_work_order "B" 4 true exPushedRow = (ApiResp.forbidden, exPushedRow) ∧
    start_work_order "T" 4 true exPushedRow =
      (ApiResp.success,
        { exPushedRow with status := "InProgress", inProgressUserID := "T",
                           currentStartTime := some 4 }) := by
  constructor
  · exact (start_pushed_to_gate exPushedRow "B" 4 (by decide)).1 (by decide)
  · exact (start_pushed_to_gate exPushedRow "T" 4 (by decide)).2 (by decide)

/-- Claim C10: start_work_order writes only Status, InProgressUserID and
CurrentStartTime — every other column, TotalTimeSeconds in particular, is
carried over unchanged, so elapsed time accrued under a non-null
CurrentStartTime is discarded without being flushed. -/
theorem start_overwrites_only_timer_fields (row : WorkOrder) (uid : String)
    (now : Int) (h : ¬(row.pushedToUserID ≠ "" ∧ row.pushedToUserID ≠ uid)) :
    (start_work_order uid now true row).2 =
      { row with status := "InProgress", inProgressUserID := uid,
                 currentStartTime := some now } ∧
    (start_work_order uid now true row).2.totalTimeSeconds =
      row.totalTimeSeconds := by
  constructor <;> simp [start_work_order, h]

/-- Witness for claim C10: restarting the already-InProgress row (timer
running since 0) at time 50 leaves TotalTimeSeconds at 0 — the 50 elapsed
seconds are discarded, not flushed. -/
theorem start_overwrites_only_timer_fields_witness :
    (start_work_order "B" 50 true exInProgressRow).2.totalTimeSeconds = 0 ∧
    (start_work_order "B" 50 true exInProgressRow).2.currentStartTime = some 50 := by
  have h := start_overwrites_only_timer_fields exInProgressRow "B" 50 (by decide)
  constructor
  · rw [h.2]; decide
  · rw [h.1]

/-- Claim C1 (counterexample): approve_work_order invoked on a row whose
status is "Open" — a status from which the spec says Approve is illegal —
replies success and changes the row, instead of failing with an
InvalidTransition error and leaving the row unchanged. -/
theorem approve_from_open_succeeds_and_mutates :
    exOpenRow.status = "Open" ∧
    approve_work_order true exOpenRow =
      (ApiResp.success, { exOpenRow with status := "Approved" }) ∧
    (approve_work_order true exOpenRow).2 ≠ exOpenRow := by
  refine ⟨rfl, rfl, ?_⟩
  decide

/-- Claim C1 (amended): the work-order endpoints perform no status
validation and no InvalidTransition error exists — pause, finish, approve
and rework reply success from every current status, and start is gated
only by PushedToUserID, never by status. -/
theorem wo_ops_never_check_status (row : WorkOrder) (uid : String) (now : Int) :
    (pause_work_order now true true row).1 = ApiResp.success ∧
    (finish_work_order uid now true true row).1 = ApiResp.success ∧
    (approve_work_order true row).1 = ApiResp.success ∧
    (rework_work_order true row).1 = ApiResp.success ∧
    (row.pushedToUserID = "" →
      (start_work_order uid now true row).1 = ApiResp.success) := by
  refine ⟨rfl, rfl, rfl, rfl, fun h => ?_⟩
  simp [start_work_order, h]

/-- Witness for amended claim C1: start on the unpushed InQA row replies
success. -/
theorem wo_ops_never_check_status_witness :
    (start_work_order "B" 3 true exInQARow).1 = ApiResp.success :=
  (wo_ops_never_check_status exInQARow "B" 3).2.2.2.2 (by decide)

/-- Claim C2 (counterexample): flushing the skewed row (timer started at
100, 50 seconds accumulated) at now = 0 adds the unclamped negative
elapsed -100, leaving TotalTimeSeconds at -50 — it decreased and went
negative. -/
theorem clock_skew_makes_total_negative :
    exSkewRow.totalTimeSeconds = 50 ∧
    (pause_work_order 0 true true exSkewRow).2.totalTimeSeconds = -50 := by
  decide

/-- Claim C2 (amended): the flush adds elapsed = now - CurrentStartTime
without clamping, so TotalTimeSeconds is non-decreasing across pause and
finish only under the assumption that now is not before the recorded
start; under clock skew the negative elapsed is added and the total can
decrease. -/
theorem flush_monotone_without_skew (row : WorkOrder) (uid : String) (now : Int)
    (h : row.currentStartTime.getD now ≤ now) :
    row.totalTimeSeconds ≤
      (pause_work_order now true true row).2.totalTimeSeconds ∧
    row.totalTimeSeconds ≤
      (finish_work_order uid now true true row).2.totalTimeSeconds := by
  cases hc : row.currentStartTime with
  | none => simp [pause_work_order, finish_work_order, log_time, hc]
  | some s =>
      rw [hc] at h
      simp only [Option.getD_some] at h
      constructor <;> simp [pause_work_order, finish_work_order, log_time, hc] <;> omega

/-- Witness for amended claim C2: pausing the InProgress row (started at 0)
at now = 7 does not decrease the total. -/
theorem flush_monotone_without_skew_witness :
    exInProgressRow.totalTimeSeconds ≤
      (pause_work_order 7 true true exInProgressRow).2.totalTimeSeconds :=
  (flush_monotone_without_skew exInProgressRow "A" 7 (by decide)).1

/-- Claim C3 (counterexample): finish_work_order called with requester "B"
on the InProgress row held by "A" performs the flush and the transition
and replies success — the core endpoint never compares the requester with
InProgressUserID (and the pause endpoint does not read a requester at
all). -/
theorem finish_by_non_holder_succeeds :
    exInProgressRow.inProgressUserID = "A" ∧
    finish_work_order "B" 30 true true exInProgressRow =
      (ApiResp.success,
        { exInProgressRow with status := "InQA", inProgressUserID := "",
                               currentStartTime := none,
                               qaSubmittedByID := "B",
                               totalTimeSeconds := 30 }) := by
  decide

/-- Claim C3 (amended): the requester-equals-InProgressUserID check exists
only in the presentation layer — pause_button and finish_button refuse a
mismatched clicker before calling the API, leaving the row unchanged, and
for the matching clicker they invoke the core endpoints, which themselves
always reply success with no requester check. -/
theorem pause_finish_requester_check_is_ui_only (row : WorkOrder)
    (uid : String) (now : Int) :
    (uid ≠ row.inProgressUserID →
      pause_button uid now true true row = (ApiResp.forbidden, row) ∧
      finish_button uid now true true row = (ApiResp.forbidden, row)) ∧
    (uid = row.inProgressUserID →
      pause_button uid now true true row = pause_work_order now true true row ∧
      finish_button uid now true true row =
        finish_work_order uid now true true row) ∧
    (pause_work_order now true true row).1 = ApiResp.success ∧
    (finish_work_order uid now true true row).1 = ApiResp.success := by
  refine ⟨fun h => ?_, fun h => ?_, rfl, rfl⟩
  · simp [pause_button, finish_button, h]
  · simp [pause_button, finish_button, h]

/-- Witness for amended claim C3: actor "B" clicking pause on the row held
by "A" is refused with Forbidden and the row is unchanged. -/
theorem pause_finish_requester_check_is_ui_only_witness :
    pause_button "B" 9 true true exInProgressRow =
      (ApiResp.forbidden, exInProgressRow) :=
  ((pause_finish_requester_check_is_ui_only exInProgressRow "B" 9).1
    (by decide)).1

/-- Claim C4 (counterexample): the core rework and finish-project
endpoints carry no requester at all — any request, in particular one from
an actor who is not the project's AccountableID, replies success and
mutates the row instead of failing with Forbidden. -/
theorem rework_and_finish_project_ignore_requester :
    rework_work_order true exInQARow =
      (ApiResp.success,
        { exInQARow with status := "Open", qaSubmittedByID := "" }) ∧
    (rework_work_order true exInQARow).2 ≠ exInQARow ∧
    finish_project "2026-10-12" true exProject =
      (ApiResp.success,
        { exProject with status := "Finished", dueDate := "2026-10-12" }) ∧
    (finish_project "2026-10-12" true exProject).2 ≠ exProject := by
  decide

/-- Claim C4 (amended): the accountable-actor check for Approve, Rework and
Finish Project exists only in the presentation layer — the buttons refuse
a clicker who differs from the project's AccountableID before calling the
API, leaving the row unchanged, and for the accountable clicker they
invoke the core endpoints, which themselves always reply success with no
requester check. -/
theorem qa_and_project_auth_is_ui_only (row : WorkOrder) (p : Project)
    (uid today : String) :
    (uid ≠ p.accountableID →
      approve_button uid p true row = (ApiResp.forbidden, row) ∧
      rework_button uid p true row = (ApiResp.forbidden, row) ∧
      finish_project_button uid today true p = (ApiResp.forbidden, p)) ∧
    (uid = p.accountableID →
      approve_button uid p true row = approve_work_order true row ∧
      rework_button uid p true row = rework_work_order true row ∧
      finish_project_button uid today true p = finish_project today true p) ∧
    (approve_work_order true row).1 = ApiResp.success ∧
    (rework_work_order true row).1 = ApiResp.success ∧
    (finish_project today true p).1 = ApiResp.success := by
  refine ⟨fun h => ?_, fun h => ?_, rfl, rfl, rfl⟩
  · simp [approve_button, rework_button, finish_project_button, h]
  · simp [approve_button, rework_button, finish_project_button, h]

/-- Witness for amended claim C4: actor "B" clicking rework on a project
accountable to "P" is refused with Forbidden and the row is unchanged. -/
theorem qa_and_project_auth_is_ui_only_witness :
    rework_button "B" exProject true exInQARow =
      (ApiResp.forbidden, exInQARow) :=
  (((qa_and_project_auth_is_ui_only exInQARow exProject "B" "2026-10-12").1
    (by decide)).2).1

/-- Claim C8 (counterexample): the reachable run create → Start by A →
Finish by A → Pause ends in status "Open" while QA_SubmittedByID is still
"A" — Pause moved the row out of InQA without clearing the field. -/
theorem qa_id_survives_leaving_inqa :
    exPauseFromInQARun.status = "Open" ∧
    exPauseFromInQARun.qaSubmittedByID = "A" := by
  decide

/-- Claim C8 (amended): QA_SubmittedByID is cleared only by Approve and
Rework; Start and Pause carry it over unchanged, so a row they move out of
InQA keeps its non-empty QA_SubmittedByID. -/
theorem qa_id_cleared_only_by_approve_rework (row : WorkOrder)
    (uid : String) (now : Int) :
    (approve_work_order true row).2.qaSubmittedByID = "" ∧
    (rework_work_order true row).2.qaSubmittedByID = "" ∧
    (pause_work_order now true true row).2.qaSubmittedByID =
      row.qaSubmittedByID ∧
    (start_work_order uid now true row).2.qaSubmittedByID =
      row.qaSubmittedByID := by
  refine ⟨rfl, rfl, ?_, ?_⟩
  · cases hc : row.currentStartTime <;> simp [pause_work_order, log_time, hc]
  · by_cases hp : row.pushedToUserID ≠ "" ∧ row.pushedToUserID ≠ uid <;>
      simp [start_work_order, hp]

/-- Claim C9 (counterexample): start_work_order whose store write fails
leaves the row unchanged yet still replies success — the failed write is
reported as success. -/
theorem failed_write_reported_as_success :
    start_work_order "A" 0 false exOpenRow = (ApiResp.success, exOpenRow) := by
  decide

/-- Claim C9 (amended): only update_work_order, update_project and
finish_project check the store write and surface its failure as an error;
start, pause, finish, approve and rework ignore the write result and reply
success even when the write failed. In every case the failed write leaves
the row unchanged and no retry is attempted. -/
theorem store_write_failure_handling (row : WorkOrder) (p : Project)
    (d : WorkOrderEdit) (e : ProjectEdit) (uid today : String) (now : Int) :
    update_work_order d false row = (ApiResp.error, row) ∧
    update_project e false p = (ApiResp.error, p) ∧
    finish_project today false p = (ApiResp.error, p) ∧
    (row.pushedToUserID = "" →
      start_work_order uid now false row = (ApiResp.success, row)) ∧
    pause_work_order now false false row = (ApiResp.success, row) ∧
    finish_work_order uid now false false row = (ApiResp.success, row) ∧
    approve_work_order false row = (ApiResp.success, row) ∧
    rework_work_order false row = (ApiResp.success, row) := by
  refine ⟨rfl, rfl, rfl, fun h => ?_, ?_, ?_, rfl, rfl⟩
  · simp [start_work_order, h]
  · simp [pause_work_order, log_time_failed_write]
  · simp [finish_work_order, log_time_failed_write]

/-- Witness for amended claim C9: a failed write under start on the
unpushed Open row is still reported as success, row unchanged. -/
theorem store_write_failure_handling_witness :
    start_work_order "C" 2 false exOpenRow = (ApiResp.success, exOpenRow) :=
  (store_write_failure_handling exOpenRow exProject
      { title := none, deliverables := none, pushedToUserID := none }
      { title := none, deliverables := none, kpi := none, dueDate := none,
        accountableID := none }
      "C" "2026-01-01" 2).2.2.2.1 (by decide)

/-- Claim C5 (counterexample): pause and finish issue two independent
update_cells calls; a reachable run (create, Start by A, then a Pause
whose flush write lands while its status write fails) ends with Status
still "InProgress" and an empty CurrentStartTime — the timer invariant is
not preserved by every operation run to completion. -/
theorem partial_pause_write_breaks_timer_invariant :
    exPartialPauseRun.status = "InProgress" ∧
    exPartialPauseRun.currentStartTime = none ∧
    ¬timerInvariant exPartialPauseRun := by
  decide

/-- An endpoint invocation whose store writes share one outcome preserves
the timer invariant. -/
theorem applyOp_preserves_timerInvariant (op : WoOp) (row : WorkOrder)
    (hop : atomicWrites op = true) (h : timerInvariant row) :
    timerInvariant (applyOp op row) := by
  cases op with
  | start u n ok =>
      by_cases hp : row.pushedToUserID ≠ "" ∧ row.pushedToUserID ≠ u
      · simpa [applyOp, start_work_order, hp] using h
      · cases ok
        · simpa [applyOp, start_work_order, hp] using h
        · simp [applyOp, start_work_order, hp, timerInvariant]
  | pause n f s =>
      have hfs : f = s := by simpa [atomicWrites] using hop
      subst hfs
      cases f
      · simpa [applyOp, pause_work_order, log_time_failed_write] using h
      · have hc := log_time_clears_timer n row
        simp [applyOp, pause_work_order, timerInvariant, hc.1]
  | finish u n f s =>
      have hfs : f = s := by simpa [atomicWrites] using hop
      subst hfs
      cases f
      · simpa [applyOp, finish_work_order, log_time_failed_write] using h
      · have hc := log_time_clears_timer n row
        simp [applyOp, finish_work_order, timerInvariant, hc.1]
  | approve ok =>
      cases ok
      · simpa [applyOp, approve_work_order] using h
      · simp [applyOp, approve_work_order, timerInvariant]
  | rework ok =>
      cases ok
      · simpa [applyOp, rework_work_order] using h
      · simp [applyOp, rework_work_order, timerInvariant]
  | update d ok =>
      cases ok
      · simpa [applyOp, update_work_order] using h
      · simpa [applyOp, update_work_order, timerInvariant] using h

/-- The timer invariant is preserved along any sequence of endpoint
invocations whose store writes share one outcome per invocation. -/
theorem runOps_preserves_timerInvariant (ops : List WoOp) (row : WorkOrder)
    (hops : ∀ op ∈ ops, atomicWrites op = true) (h : timerInvariant row) :
    timerInvariant (runOps ops row) := by
  induction ops generalizing row with
  | nil => simpa [runOps] using h
  | cons op rest ih =>
      simpa [runOps] using
        ih (applyOp op row) (fun o ho => hops o (List.mem_cons_of_mem op ho))
          (applyOp_preserves_timerInvariant op row
            (hops op (List.mem_cons_self op rest)) h)

/-- Claim C5 (amended): every row reachable from a freshly created work
order by endpoint invocations each of whose store writes all land or all
fail satisfies the timer invariant — CurrentStartTime is non-null iff
Status is InProgress; pause or finish with a landed flush write and a
failed status write (or vice versa) can break it. -/
theorem timer_invariant_reachable_atomic (ops : List WoOp)
    (hops : ∀ op ∈ ops, atomicWrites op = true)
    (woID projID threadID title deliv pushedTo : String) :
    timerInvariant
      (runOps ops
        (create_work_order woID projID threadID title deliv pushedTo)) :=
  runOps_preserves_timerInvariant ops _ hops
    (by simp [timerInvariant, create_work_order])

/-- Witness for amended claim C5: a concrete all-writes-landing run
create, Start by A at 0, Finish by A at 5, Rework, Start by B at 9,
Pause at 11 satisfies the invariant. -/
theorem timer_invariant_reachable_atomic_witness :
    timerInvariant
      (runOps
        [WoOp.start "A" 0 true, WoOp.finish "A" 5 true true,
         WoOp.rework true, WoOp.start "B" 9 true, WoOp.pause 11 true true]
        (create_work_order "wo-1-104" "proj-1" "th-4" "T" "D" "")) :=
  timer_invariant_reachable_atomic
    [WoOp.start "A" 0 true, WoOp.finish "A" 5 true true,
     WoOp.rework true, WoOp.start "B" 9 true, WoOp.pause 11 true true]
    (by decide) "wo-1-104" "proj-1" "th-4" "T" "D" ""

end Tidal
